import Mathlib

/-!
Verification development for the smart-tourist-safety backend core.

The JavaScript sources are shallowly embedded:
* numbers are modelled as rationals (`ℚ`) — every arithmetic step the
  claims depend on is exact (comparisons, linear blends, clamps);
* transcendental helpers (`Math.exp` inside the decay terms, the
  haversine `calculateDistance`, and the string cleanup
  `formatReasonText`) are abstracted as parameters: the properties under
  scrutiny hold for every instantiation, in particular for the concrete
  functions the code uses;
* database query results are passed in as explicit lists, fallible
  queries as `Except` values;
* JavaScript truthiness on optional numeric / string fields is modelled
  with `Option` plus explicit zero tests where the code relies on `0`
  being falsy.
-/

namespace RiskEngine

/-- Persistence tier of a risk cell (`tierLevel` in the schema). -/
inductive Tier where
  | Standard
  | High
  | Critical
deriving DecidableEq, Repr

open Tier

/-- Weight constants from riskEngineService.js. -/
def W_INCIDENT : ℚ := 0.40

/-- SOS weight constant from riskEngineService.js. -/
def W_SOS : ℚ := 0.50

/-- History weight constant from riskEngineService.js. -/
def W_HISTORY : ℚ := 0.10

/-- Result of the tier classification block of `processGrid`
(lines 127–144): tier, retention duration in days, display radius in m. -/
structure TierInfo where
  tier : Tier
  durationDays : ℕ
  displayRadius : ℕ
deriving DecidableEq, Repr

/-- Embedding of the tier classification of `processGrid`:
starts from Standard/7d/500m and upgrades via the two guarded branches. -/
def classifyTier (combinedCount : ℕ) (maxIncidentSeverity minSosSafetyScore : ℚ) :
    TierInfo :=
  if combinedCount > 5 ∨ maxIncidentSeverity ≥ 0.8 ∨ minSosSafetyScore ≤ 30 then
    ⟨Critical, 30, 1500⟩
  else if combinedCount > 2 ∨ maxIncidentSeverity ≥ 0.6 ∨ minSosSafetyScore ≤ 50 then
    ⟨High, 14, 1000⟩
  else
    ⟨Standard, 7, 500⟩

/-- Intensity metric: combined event count (`sosAlerts.length + incidents.length`). -/
def combinedCount (sosCount incidentCount : ℕ) : ℕ := sosCount + incidentCount

/-- Intensity metric: maximum incident severity, folded exactly as the
`incidents.forEach` loop does starting from 0. -/
def maxIncidentSeverityOf (sevs : List ℚ) : ℚ :=
  sevs.foldl (fun m s => if s > m then s else m) 0

/-- Intensity metric: minimum SOS safety score, folded exactly as the
`sosAlerts.forEach` loop does starting from 100; an alert without a
`safetyScore` field is skipped. -/
def minSosSafetyScoreOf (scores : List (Option ℚ)) : ℚ :=
  scores.foldl (fun m s => match s with
    | some v => if v < m then v else m
    | none => m) 100

/-- Spec-side tier classification, written from the claim wording:
count>5 or severity≥0.8 or safety≤30 → Critical, count>2 or severity≥0.6
or safety≤50 → High, else Standard. -/
def tierSpec (count : ℕ) (severity safety : ℚ) : Tier :=
  if count > 5 ∨ severity ≥ 0.8 ∨ safety ≤ 30 then Critical
  else if count > 2 ∨ severity ≥ 0.6 ∨ safety ≤ 50 then High
  else Standard

/-- Spec-side retention duration (days) per tier from the claim wording. -/
def retentionSpec : Tier → ℕ
  | Critical => 30
  | High => 14
  | Standard => 7

/-- Spec-side display radius (meters) per tier from the claim wording. -/
def radiusSpec : Tier → ℕ
  | Critical => 1500
  | High => 1000
  | Standard => 500

/-- Tier duration in days as a function of the tier; agrees with the
joint assignment in `classifyTier` (see `classifyTier_duration_radius`). -/
def tierDurationDays : Tier → ℕ
  | Standard => 7
  | High => 14
  | Critical => 30

/-- Tier duration in milliseconds (`durationDays * 24 * 60 * 60 * 1000`). -/
def tierDurationMs (t : Tier) : ℚ := (tierDurationDays t : ℚ) * 86400000

/-- The `classifyTier` output is internally consistent: duration and
radius are functions of the tier. -/
theorem classifyTier_duration_radius (c : ℕ) (sev saf : ℚ) :
    (classifyTier c sev saf).durationDays = tierDurationDays (classifyTier c sev saf).tier ∧
    (classifyTier c sev saf).displayRadius = radiusSpec (classifyTier c sev saf).tier := by
  unfold classifyTier tierDurationDays radiusSpec
  split_ifs <;> simp

/-- Expiry timestamp (ms): latest contributing event time plus tier duration. -/
def expiresAt (latestEventTime : ℚ) (t : Tier) : ℚ :=
  latestEventTime + tierDurationMs t

/-- Time-remaining ratio of `processGrid`, clamped into [0,1]:
`Math.max(0, Math.min(1, (expiryTime - now) / totalDurationMs))`. -/
def timeRemainingRatio (now expiry durMs : ℚ) : ℚ :=
  max 0 (min 1 ((expiry - now) / durMs))

/-- The sliding floor ceiling per tier (0.8 Critical, 0.6 High, none for
Standard). -/
def tierCeiling : Tier → ℚ
  | Critical => 0.8
  | High => 0.6
  | Standard => 0

/-- Dynamic floor of `processGrid` at evaluation time `now` for a cell
whose latest event is at `latestEventTime`. -/
def dynamicFloor (t : Tier) (latestEventTime now : ℚ) : ℚ :=
  tierCeiling t * timeRemainingRatio now (expiresAt latestEventTime t) (tierDurationMs t)

/-- Floor application of `processGrid` (`Math.max(finalScore, dynamicFloor)`
for High and Critical tiers only). -/
def applyDynamicFloor (t : Tier) (latestEventTime now score : ℚ) : ℚ :=
  match t with
  | Critical => max score (dynamicFloor Critical latestEventTime now)
  | High => max score (dynamicFloor High latestEventTime now)
  | Standard => score

/-- Adaptive weighting of `processGrid`: when the incident term is zero
and the SOS term is positive, weight shifts to the SOS term. -/
def adaptiveWeights (t : Tier) (incidentScore sosScore : ℚ) : ℚ × ℚ :=
  if incidentScore = 0 ∧ sosScore > 0 then
    if t = Critical then (0, 0.95) else (0.10, 0.80)
  else (W_INCIDENT, W_SOS)

/-- Weighted sum of `processGrid`
(`wIncident*incidentScore + wSos*sosScore + W_HISTORY*historyScore`). -/
def weightedSum (t : Tier) (incidentScore sosScore historyScore : ℚ) : ℚ :=
  (adaptiveWeights t incidentScore sosScore).1 * incidentScore +
    (adaptiveWeights t incidentScore sosScore).2 * sosScore +
    W_HISTORY * historyScore

/-- Final clamp of `processGrid`: `Math.min(Math.max(finalScore, 0), 1)`. -/
def clamp01 (s : ℚ) : ℚ := min (max s 0) 1

/-- The persisted risk score of `processGrid`: weighted sum, then the
sliding floor, then the clamp to [0,1].  The exponentially decayed
component scores (`sosScore`, `incidentScore`, `historyScore`) are taken
as inputs since their `Math.exp` evaluation is transcendental; every
theorem below holds for all rational values of those components. -/
def processGridFinalScore (t : Tier) (incidentScore sosScore historyScore
    latestEventTime now : ℚ) : ℚ :=
  clamp01 (applyDynamicFloor t latestEventTime now
    (weightedSum t incidentScore sosScore historyScore))

/-- Risk level bands of `processGrid`:
≥0.8 Very High, ≥0.6 High, ≥0.3 Medium, else Low. -/
def riskLevelOf (s : ℚ) : String :=
  if s ≥ 0.8 then "Very High"
  else if s ≥ 0.6 then "High"
  else if s ≥ 0.3 then "Medium"
  else "Low"

/-- Ordinal position of a risk level band. -/
def riskLevelOrd : String → ℕ
  | "Low" => 0
  | "Medium" => 1
  | "High" => 2
  | "Very High" => 3
  | _ => 0

/-- The persisted cell fields set by the `findOneAndUpdate` upsert that
the invariants concern. -/
structure PersistedCell where
  riskScore : ℚ
  riskLevel : String
  tierLevel : Tier
  radius : ℕ
deriving DecidableEq, Repr

/-- The cell as persisted by `processGrid`, given the classification and
the component scores. -/
def processGridPersist (info : TierInfo) (incidentScore sosScore historyScore
    latestEventTime now : ℚ) : PersistedCell :=
  let s := processGridFinalScore info.tier incidentScore sosScore historyScore
    latestEventTime now
  ⟨s, riskLevelOf s, info.tier, info.displayRadius⟩

/-- Every tier duration is positive. -/
theorem tierDurationMs_pos (t : Tier) : 0 < tierDurationMs t := by
  cases t <;> norm_num [tierDurationMs, tierDurationDays]

/-- The time-remaining ratio is nonnegative. -/
theorem timeRemainingRatio_nonneg (now expiry durMs : ℚ) :
    0 ≤ timeRemainingRatio now expiry durMs :=
  le_max_left 0 _

/-- The time-remaining ratio is at most one. -/
theorem timeRemainingRatio_le_one (now expiry durMs : ℚ) :
    timeRemainingRatio now expiry durMs ≤ 1 :=
  max_le (by norm_num) (min_le_left 1 _)

/-- Between the latest event and expiry the clamp in the ratio is inert:
the ratio is exactly the linear fraction of tier duration remaining. -/
theorem timeRemainingRatio_eq (t : Tier) (latest now : ℚ)
    (h1 : latest ≤ now) (h2 : now ≤ expiresAt latest t) :
    timeRemainingRatio now (expiresAt latest t) (tierDurationMs t) =
      (expiresAt latest t - now) / tierDurationMs t := by
  have hd := tierDurationMs_pos t
  have hx0 : 0 ≤ (expiresAt latest t - now) / tierDurationMs t :=
    div_nonneg (by linarith) hd.le
  have hx1 : (expiresAt latest t - now) / tierDurationMs t ≤ 1 := by
    rw [div_le_one hd]
    simp only [expiresAt] at h2 ⊢
    linarith
  unfold timeRemainingRatio
  rw [min_eq_right hx1, max_eq_right hx0]

/-- The ceiling of a High or Critical tier is positive. -/
theorem tierCeiling_pos {t : Tier} (h : t = Tier.High ∨ t = Tier.Critical) :
    0 < tierCeiling t := by
  rcases h with h | h <;> subst h <;> norm_num [tierCeiling]

/-- The dynamic floor never exceeds 1. -/
theorem dynamicFloor_le_one (t : Tier) (latest now : ℚ) :
    dynamicFloor t latest now ≤ 1 := by
  have hr0 := timeRemainingRatio_nonneg now (expiresAt latest t) (tierDurationMs t)
  have hr1 := timeRemainingRatio_le_one now (expiresAt latest t) (tierDurationMs t)
  have hc0 : 0 ≤ tierCeiling t := by cases t <;> norm_num [tierCeiling]
  have hc1 : tierCeiling t ≤ 1 := by cases t <;> norm_num [tierCeiling]
  calc tierCeiling t * timeRemainingRatio now (expiresAt latest t) (tierDurationMs t)
      ≤ tierCeiling t * 1 := by nlinarith
    _ ≤ 1 := by linarith

/-- The dynamic floor is nonnegative. -/
theorem dynamicFloor_nonneg (t : Tier) (latest now : ℚ) :
    0 ≤ dynamicFloor t latest now := by
  have hr0 := timeRemainingRatio_nonneg now (expiresAt latest t) (tierDurationMs t)
  have hc0 : 0 ≤ tierCeiling t := by cases t <;> norm_num [tierCeiling]
  exact mul_nonneg hc0 hr0

/-- For High/Critical tiers the floored score is at least the floor. -/
theorem applyDynamicFloor_ge {t : Tier} (h : t = Tier.High ∨ t = Tier.Critical)
    (latest now score : ℚ) :
    dynamicFloor t latest now ≤ applyDynamicFloor t latest now score := by
  rcases h with h | h <;> subst h <;> exact le_max_right _ _

/-- `clamp01` keeps any lower bound that already lies inside [0,1]. -/
theorem clamp01_ge {f y : ℚ} (h1 : f ≤ 1) (hfy : f ≤ y) :
    f ≤ clamp01 y :=
  le_min (le_trans hfy (le_max_left y 0)) h1

/-- C1: for every cell recomputation by `processGrid`, the tier and the
tier-fixed retention duration and display radius are exactly those given
by the spec thresholds on count / max incident severity / min SOS safety
score (count>5 ∨ severity≥0.8 ∨ safety≤30 → Critical/30d/1500m;
count>2 ∨ severity≥0.6 ∨ safety≤50 → High/14d/1000m; else
Standard/7d/500m). -/
theorem c1_tier_classification (c : ℕ) (sev saf : ℚ) :
    (classifyTier c sev saf).tier = tierSpec c sev saf ∧
    (classifyTier c sev saf).durationDays = retentionSpec (tierSpec c sev saf) ∧
    (classifyTier c sev saf).displayRadius = radiusSpec (tierSpec c sev saf) := by
  unfold classifyTier tierSpec retentionSpec radiusSpec
  split_ifs <;> simp

/-- C2: sliding floor. For a High- or Critical-tier cell evaluated before
its expiry: (1) the enforced floor equals the tier ceiling (0.6 High,
0.8 Critical) scaled linearly by the fraction of the tier duration that
remains; (2) with no new events the floor strictly decreases as the
evaluation time advances; (3) the floor reaches 0 at expiry; (4) the
persisted score never falls below the floor. -/
theorem c2_sliding_floor (t : Tier) (incS sosS histS latest now t1 t2 : ℚ)
    (htier : t = Tier.High ∨ t = Tier.Critical)
    (hn1 : latest ≤ now) (hn2 : now ≤ expiresAt latest t)
    (h1 : latest ≤ t1) (h12 : t1 < t2) (h2 : t2 ≤ expiresAt latest t) :
    dynamicFloor t latest now =
      tierCeiling t * ((expiresAt latest t - now) / tierDurationMs t) ∧
    dynamicFloor t latest t2 < dynamicFloor t latest t1 ∧
    dynamicFloor t latest (expiresAt latest t) = 0 ∧
    dynamicFloor t latest now ≤ processGridFinalScore t incS sosS histS latest now := by
  have hd := tierDurationMs_pos t
  have hc := tierCeiling_pos htier
  refine ⟨?_, ?_, ?_, ?_⟩
  · rw [dynamicFloor, timeRemainingRatio_eq t latest now hn1 hn2]
  · rw [dynamicFloor, dynamicFloor,
      timeRemainingRatio_eq t latest t1 h1 (le_of_lt (lt_of_lt_of_le h12 h2)),
      timeRemainingRatio_eq t latest t2 (le_trans h1 (le_of_lt h12)) h2]
    have hlt : (expiresAt latest t - t2) / tierDurationMs t <
        (expiresAt latest t - t1) / tierDurationMs t := by
      gcongr
    exact mul_lt_mul_of_pos_left hlt hc
  · simp [dynamicFloor, timeRemainingRatio]
  · exact clamp01_ge (dynamicFloor_le_one t latest now)
      (applyDynamicFloor_ge htier latest now _)

/-- C8: every cell persisted by `processGrid` has a risk score in [0,1],
its stored risk level is the pure band function of that score, and the
band function is monotone in the score. -/
theorem c8_score_bounds_level_monotone (info : TierInfo)
    (incS sosS histS latest now s u : ℚ) (hsu : s ≤ u) :
    0 ≤ (processGridPersist info incS sosS histS latest now).riskScore ∧
    (processGridPersist info incS sosS histS latest now).riskScore ≤ 1 ∧
    (processGridPersist info incS sosS histS latest now).riskLevel =
      riskLevelOf (processGridPersist info incS sosS histS latest now).riskScore ∧
    riskLevelOrd (riskLevelOf s) ≤ riskLevelOrd (riskLevelOf u) := by
  refine ⟨?_, ?_, rfl, ?_⟩
  · exact le_min (le_max_right _ 0) (by norm_num)
  · exact min_le_right _ 1
  · unfold riskLevelOf riskLevelOrd
    split_ifs <;> simp_all <;> linarith

/-- Witness for C2 at a concrete Critical cell (latest event at time 0,
evaluations at 0 and 1 ms). -/
theorem c2_sliding_floor_witness :
    dynamicFloor Tier.Critical 0 0 =
      tierCeiling Tier.Critical *
        ((expiresAt 0 Tier.Critical - 0) / tierDurationMs Tier.Critical) ∧
    dynamicFloor Tier.Critical 0 1 < dynamicFloor Tier.Critical 0 0 ∧
    dynamicFloor Tier.Critical 0 (expiresAt 0 Tier.Critical) = 0 ∧
    dynamicFloor Tier.Critical 0 0 ≤ processGridFinalScore Tier.Critical 0 0 0 0 0 :=
  c2_sliding_floor Tier.Critical 0 0 0 0 0 0 1 (Or.inr rfl) le_rfl
    (by norm_num [expiresAt, tierDurationMs, tierDurationDays]) le_rfl (by norm_num)
    (by norm_num [expiresAt, tierDurationMs, tierDurationDays])

/-- Witness for C8 at a concrete cell and a concrete score pair. -/
theorem c8_score_bounds_level_monotone_witness :
    0 ≤ (processGridPersist ⟨Tier.Standard, 7, 500⟩ 0 0 0 0 0).riskScore ∧
    (processGridPersist ⟨Tier.Standard, 7, 500⟩ 0 0 0 0 0).riskScore ≤ 1 ∧
    (processGridPersist ⟨Tier.Standard, 7, 500⟩ 0 0 0 0 0).riskLevel =
      riskLevelOf (processGridPersist ⟨Tier.Standard, 7, 500⟩ 0 0 0 0 0).riskScore ∧
    riskLevelOrd (riskLevelOf 0.2) ≤ riskLevelOrd (riskLevelOf 0.7) :=
  c8_score_bounds_level_monotone ⟨Tier.Standard, 7, 500⟩ 0 0 0 0 0 0.2 0.7 (by norm_num)

/-- Embedding of the batch loop of `updateRiskScores`
(`for (const gid of activeGridIds) { await processGrid(gid); }`): the
per-cell work `f` runs sequentially; a rejected promise propagates, so
the loop stops at the first failing cell.  The result is the list of
cells actually recomputed together with the propagated error, if any. -/
def runBatch (f : String → Except String Unit) :
    List String → List String × Option String
  | [] => ([], none)
  | g :: rest =>
    match f g with
    | Except.ok _ =>
      let r := runBatch f rest
      (g :: r.1, r.2)
    | Except.error e => ([], some e)

/-- A concrete per-cell computation that fails only on cell `"a"`. -/
def failOnA (g : String) : Except String Unit :=
  if g = "a" then Except.error "boom" else Except.ok ()

/-- C4 counterexample: with cells `["a", "b"]` and a failure on `"a"`
alone, cell `"b"` is not a failing cell yet is never recomputed — the
failure aborts the batch instead of being isolated. -/
theorem c4_batch_isolation_counterexample :
    failOnA "b" = Except.ok () ∧
    (runBatch failOnA ["a", "b"]).1 = [] ∧
    (runBatch failOnA ["a", "b"]).2 = some "boom" := by
  refine ⟨rfl, rfl, rfl⟩

/-- C4 amended: a failure while recomputing a cell aborts the remainder
of the batch — exactly the cells listed before the first failing cell
are recomputed, and the error propagates to the caller of
`updateRiskScores`. -/
theorem c4_batch_abort_on_first_failure (f : String → Except String Unit)
    (l1 l2 : List String) (g e : String)
    (hok : ∀ x ∈ l1, f x = Except.ok ())
    (hfail : f g = Except.error e) :
    runBatch f (l1 ++ g :: l2) = (l1, some e) := by
  induction l1 with
  | nil => simp [runBatch, hfail]
  | cons x xs ih =>
    have hx : f x = Except.ok () := hok x (by simp)
    have hxs : ∀ y ∈ xs, f y = Except.ok () := fun y hy => hok y (by simp [hy])
    simp [runBatch, hx, ih hxs]

/-- Witness for the amended C4 at a concrete batch. -/
theorem c4_batch_abort_on_first_failure_witness :
    runBatch failOnA (["z"] ++ "a" :: ["b"]) = (["z"], some "boom") :=
  c4_batch_abort_on_first_failure failOnA ["z"] ["b"] "a" "boom"
    (by intro x hx; simp at hx; subst hx; rfl) rfl

end RiskEngine

namespace Realtime

/-- A tourist location as stored on the socket (`socket.data.location`). -/
structure Loc where
  lat : ℚ
  lng : ℚ
deriving DecidableEq, Repr

/-- A live tourist connection: socket id plus the stored last known
location (absent when the client never sent one). -/
structure TouristSocket where
  sid : String
  location : Option Loc
deriving DecidableEq, Repr

/-- The geofence target carried by an authority alert
(`alertData.targetArea`). -/
structure TargetArea where
  lat : ℚ
  lng : ℚ
  radius : ℚ
deriving DecidableEq, Repr

/-- A delivery of the alert to one socket, tagged with
`distanceFromEvent` (rounded meters) when the broadcast was geofenced. -/
abbrev Delivery := TouristSocket × Option ℤ

/-- All live tourist sockets, in registry iteration order
(`touristSockets` is a Map of socket sets per tourist id). -/
def allSockets (registry : List (String × List TouristSocket)) : List TouristSocket :=
  match registry with
  | [] => []
  | e :: rest => e.2 ++ allSockets rest

/-- The truthiness guard of `emitAuthorityAlertToTourists`
(`touristLocation && touristLocation.lat && touristLocation.lng`): the
stored location must exist and both coordinates must be nonzero, since
`0` is falsy in JavaScript. -/
def locationGuard (s : TouristSocket) : Bool :=
  match s.location with
  | some l => decide (l.lat ≠ 0) && decide (l.lng ≠ 0)
  | none => false

/-- Inner loop of the geofenced branch over one socket set: a socket
passing the guard whose distance to the target center is within the
radius (inclusive `distance <= targetRadius`) receives the alert, tagged
with `Math.round(distance)`.  The great-circle `calculateDistance` is
abstracted as the parameter `dist`. -/
def emitToSockets (dist : ℚ → ℚ → ℚ → ℚ → ℚ) (tgt : TargetArea) :
    List TouristSocket → List Delivery
  | [] => []
  | s :: rest =>
    match s.location with
    | some l =>
      if l.lat ≠ 0 ∧ l.lng ≠ 0 then
        let d := dist tgt.lat tgt.lng l.lat l.lng
        if d ≤ tgt.radius then (s, some (round d)) :: emitToSockets dist tgt rest
        else emitToSockets dist tgt rest
      else emitToSockets dist tgt rest
    | none => emitToSockets dist tgt rest

/-- Outer loop of the geofenced branch over the registry entries. -/
def emitTargeted (dist : ℚ → ℚ → ℚ → ℚ → ℚ) (tgt : TargetArea) :
    List (String × List TouristSocket) → List Delivery
  | [] => []
  | e :: rest => emitToSockets dist tgt e.2 ++ emitTargeted dist tgt rest

/-- Embedding of `emitAuthorityAlertToTourists` restricted to its
delivery decisions: with no connected tourists nothing is sent; with no
target area the payload goes to every socket in the `tourists` room
(untagged); otherwise the geofenced loops run. -/
def emitAuthorityAlertToTourists (dist : ℚ → ℚ → ℚ → ℚ → ℚ)
    (registry : List (String × List TouristSocket))
    (targetArea : Option TargetArea) : List Delivery :=
  if (allSockets registry).length = 0 then []
  else
    match targetArea with
    | none => (allSockets registry).map (fun s => (s, none))
    | some tgt => emitTargeted dist tgt registry

/-- The delivery decision for one socket, as a filterMap function. -/
def deliveryOf (dist : ℚ → ℚ → ℚ → ℚ → ℚ) (tgt : TargetArea)
    (s : TouristSocket) : Option Delivery :=
  match s.location with
  | some l =>
    if l.lat ≠ 0 ∧ l.lng ≠ 0 ∧ dist tgt.lat tgt.lng l.lat l.lng ≤ tgt.radius then
      some (s, some (round (dist tgt.lat tgt.lng l.lat l.lng)))
    else none
  | none => none

/-- Equation lemma: a socket without a stored location yields no delivery. -/
theorem deliveryOf_loc_none (dist : ℚ → ℚ → ℚ → ℚ → ℚ) (tgt : TargetArea)
    {s : TouristSocket} (h : s.location = none) :
    deliveryOf dist tgt s = none := by
  unfold deliveryOf
  rw [h]

/-- Equation lemma: the delivery decision for a socket with a stored
location. -/
theorem deliveryOf_loc_some (dist : ℚ → ℚ → ℚ → ℚ → ℚ) (tgt : TargetArea)
    {s : TouristSocket} {l : Loc} (h : s.location = some l) :
    deliveryOf dist tgt s =
      if l.lat ≠ 0 ∧ l.lng ≠ 0 ∧ dist tgt.lat tgt.lng l.lat l.lng ≤ tgt.radius then
        some (s, some (round (dist tgt.lat tgt.lng l.lat l.lng)))
      else none := by
  unfold deliveryOf
  rw [h]

/-- Anything `deliveryOf` emits carries the inspected socket itself and
certifies the guard and the radius test. -/
theorem deliveryOf_mem_spec (dist : ℚ → ℚ → ℚ → ℚ → ℚ) (tgt : TargetArea)
    {a : TouristSocket} {p : Delivery} (h : deliveryOf dist tgt a = some p) :
    ∃ al, a.location = some al ∧ al.lat ≠ 0 ∧ al.lng ≠ 0 ∧
      dist tgt.lat tgt.lng al.lat al.lng ≤ tgt.radius ∧
      p = (a, some (round (dist tgt.lat tgt.lng al.lat al.lng))) := by
  rcases hal : a.location with _ | al
  · rw [deliveryOf_loc_none dist tgt hal] at h
    exact absurd h (by simp)
  · rw [deliveryOf_loc_some dist tgt hal] at h
    by_cases hc : al.lat ≠ 0 ∧ al.lng ≠ 0 ∧ dist tgt.lat tgt.lng al.lat al.lng ≤ tgt.radius
    · rw [if_pos hc] at h
      exact ⟨al, rfl, hc.1, hc.2.1, hc.2.2, (Option.some.inj h).symm⟩
    · rw [if_neg hc] at h
      exact absurd h (by simp)

/-- The inner loop is the filterMap of the per-socket decision. -/
theorem emitToSockets_eq_filterMap (dist : ℚ → ℚ → ℚ → ℚ → ℚ)
    (tgt : TargetArea) (l : List TouristSocket) :
    emitToSockets dist tgt l = l.filterMap (deliveryOf dist tgt) := by
  induction l with
  | nil => rfl
  | cons s rest ih =>
    cases hs : s.location with
    | none => simp [emitToSockets, List.filterMap, deliveryOf, hs, ih]
    | some loc =>
      by_cases hlat : loc.lat ≠ 0 <;> by_cases hlng : loc.lng ≠ 0 <;>
        by_cases hd : dist tgt.lat tgt.lng loc.lat loc.lng ≤ tgt.radius <;>
        simp [emitToSockets, deliveryOf, hs, hlat, hlng, hd, ih]

/-- The nested loops are the filterMap over all sockets. -/
theorem emitTargeted_eq_filterMap (dist : ℚ → ℚ → ℚ → ℚ → ℚ)
    (tgt : TargetArea) (registry : List (String × List TouristSocket)) :
    emitTargeted dist tgt registry =
      (allSockets registry).filterMap (deliveryOf dist tgt) := by
  induction registry with
  | nil => rfl
  | cons e rest ih =>
    simp [emitTargeted, allSockets, List.filterMap_append, ih,
      emitToSockets_eq_filterMap]

/-- A concrete stand-in for the haversine `calculateDistance` used in
closed instances: a flat taxicab metric scaled to meters.  It agrees
with the haversine on the coincident-point inputs the instances use
(both give 0 there). -/
def flatDist (lat1 lng1 lat2 lng2 : ℚ) : ℚ :=
  |lat2 - lat1| * 111000 + |lng2 - lng1| * 111000

/-- C6 counterexample: a live end-user connection stored at latitude 0
(on the equator) and longitude 10 sits at distance 0 from the target
center (0,10) — within the 100 m radius — yet the alert is delivered to
nobody, because the truthiness guard drops latitude 0. -/
theorem c6_geofence_counterexample :
    flatDist 0 10 0 10 ≤ (100 : ℚ) ∧
    emitAuthorityAlertToTourists flatDist
      [("t1", [⟨"s1", some ⟨0, 10⟩⟩])] (some ⟨0, 10, 100⟩) = [] := by
  constructor
  · norm_num [flatDist]
  · rfl

/-- C6 amended: an authority alert with no target area goes to every
live end-user connection; a geofenced alert is delivered exactly to the
connections whose stored location exists with nonzero latitude and
longitude and lies within the radius of the target center (inclusive at
the boundary, so distance exactly R qualifies), each delivery tagged
with the rounded computed distance. -/
theorem c6_geofenced_broadcast (dist : ℚ → ℚ → ℚ → ℚ → ℚ)
    (registry : List (String × List TouristSocket)) (tgt : TargetArea)
    (s : TouristSocket) (l : Loc) (hs : s ∈ allSockets registry)
    (hloc : s.location = some l) (hlat : l.lat ≠ 0) (hlng : l.lng ≠ 0) :
    emitAuthorityAlertToTourists dist registry none =
      (allSockets registry).map (fun x => (x, none)) ∧
    emitAuthorityAlertToTourists dist registry (some tgt) =
      (allSockets registry).filterMap (deliveryOf dist tgt) ∧
    ((s, some (round (dist tgt.lat tgt.lng l.lat l.lng))) ∈
        emitAuthorityAlertToTourists dist registry (some tgt) ↔
      dist tgt.lat tgt.lng l.lat l.lng ≤ tgt.radius) := by
  have hne : (allSockets registry).length ≠ 0 := by
    intro h0
    rw [List.length_eq_zero] at h0
    rw [h0] at hs
    exact absurd hs (List.not_mem_nil s)
  have htgtd : emitAuthorityAlertToTourists dist registry (some tgt) =
      (allSockets registry).filterMap (deliveryOf dist tgt) := by
    simp [emitAuthorityAlertToTourists, hne, emitTargeted_eq_filterMap]
  refine ⟨by simp [emitAuthorityAlertToTourists, hne], htgtd, ?_⟩
  rw [htgtd]
  constructor
  · intro hmem
    rcases List.mem_filterMap.mp hmem with ⟨a, _, ha⟩
    rcases deliveryOf_mem_spec dist tgt ha with ⟨al, hal, _, _, hr, hp⟩
    have has : a = s := congrArg Prod.fst hp.symm
    subst has
    rw [hloc] at hal
    cases Option.some.inj hal
    exact hr
  · intro hd
    apply List.mem_filterMap.mpr
    refine ⟨s, hs, ?_⟩
    rw [deliveryOf_loc_some dist tgt hloc, if_pos ⟨hlat, hlng, hd⟩]

/-- Witness for the amended C6: a connection at (1, 10), nonzero
coordinates, at distance 0 from the target center (1, 10). -/
theorem c6_geofenced_broadcast_witness :
    emitAuthorityAlertToTourists flatDist [("t1", [⟨"s1", some ⟨1, 10⟩⟩])] none =
      (allSockets [("t1", [⟨"s1", some ⟨1, 10⟩⟩])]).map (fun x => (x, none)) ∧
    emitAuthorityAlertToTourists flatDist [("t1", [⟨"s1", some ⟨1, 10⟩⟩])]
        (some ⟨1, 10, 100⟩) =
      (allSockets [("t1", [⟨"s1", some ⟨1, 10⟩⟩])]).filterMap
        (deliveryOf flatDist ⟨1, 10, 100⟩) ∧
    (((⟨"s1", some ⟨1, 10⟩⟩ : TouristSocket),
        some (round (flatDist 1 10 1 10))) ∈
        emitAuthorityAlertToTourists flatDist [("t1", [⟨"s1", some ⟨1, 10⟩⟩])]
          (some ⟨1, 10, 100⟩) ↔
      flatDist 1 10 1 10 ≤ (100 : ℚ)) :=
  c6_geofenced_broadcast flatDist [("t1", [⟨"s1", some ⟨1, 10⟩⟩])] ⟨1, 10, 100⟩
    ⟨"s1", some ⟨1, 10⟩⟩ ⟨1, 10⟩ (by simp [allSockets]) rfl
    (by norm_num) (by norm_num)

/-- C10: in a geofenced authority broadcast, a connection whose stored
location is absent, or whose stored latitude or longitude equals 0, is
never delivered the alert — for every distance function and radius, so
in particular even when its true distance to the center is within the
radius. -/
theorem c10_falsy_location_skipped (dist : ℚ → ℚ → ℚ → ℚ → ℚ)
    (registry : List (String × List TouristSocket)) (tgt : TargetArea)
    (s : TouristSocket)
    (hbad : s.location = none ∨ ∃ l, s.location = some l ∧ (l.lat = 0 ∨ l.lng = 0)) :
    ∀ tag, (s, tag) ∉ emitAuthorityAlertToTourists dist registry (some tgt) := by
  intro tag hmem
  unfold emitAuthorityAlertToTourists at hmem
  by_cases hlen : (allSockets registry).length = 0
  · rw [if_pos hlen] at hmem
    exact absurd hmem (List.not_mem_nil _)
  · rw [if_neg hlen] at hmem
    simp only [emitTargeted_eq_filterMap] at hmem
    rcases List.mem_filterMap.mp hmem with ⟨a, _, ha⟩
    rcases deliveryOf_mem_spec dist tgt ha with ⟨al, hal, hlat0, hlng0, _, hp⟩
    have has : a = s := congrArg Prod.fst hp.symm
    subst has
    rcases hbad with hb | ⟨lb, hb, hz⟩
    · rw [hb] at hal; exact absurd hal (by simp)
    · rw [hb] at hal
      cases Option.some.inj hal
      rcases hz with hz | hz
      · exact hlat0 hz
      · exact hlng0 hz

/-- Witness for C10: a connection stored at latitude 0 right at the
target center is skipped. -/
theorem c10_falsy_location_skipped_witness :
    ((⟨"s1", some ⟨0, 5⟩⟩ : TouristSocket), (some 0 : Option ℤ)) ∉
      emitAuthorityAlertToTourists flatDist [("t1", [⟨"s1", some ⟨0, 5⟩⟩])]
        (some ⟨0, 5, 100⟩) :=
  c10_falsy_location_skipped flatDist [("t1", [⟨"s1", some ⟨0, 5⟩⟩])] ⟨0, 5, 100⟩
    ⟨"s1", some ⟨0, 5⟩⟩ (Or.inr ⟨⟨0, 5⟩, rfl, Or.inl rfl⟩) (some 0)

end Realtime

namespace Fallback

/-- An SOS alert payload as handed to the fallback service; the fields
other than the id are opaque to the store. -/
structure Payload where
  alertId : String
  data : String
deriving DecidableEq, Repr

/-- One line of the durable `fallback.log`: either an informational or
warning line, or a payload line written with the `SOS_PAYLOAD` marker
message (only the latter is matched by the retrieval scan). -/
inductive LogLine where
  | warnLine (msg : String)
  | payloadLine (p : Payload)
deriving DecidableEq, Repr

/-- A cache entry: Redis key, stored JSON payload, TTL in seconds set by
the `expire` call. -/
structure CacheEntry where
  key : String
  payload : Payload
  ttl : ℕ
deriving DecidableEq, Repr

/-- The fallback service state: whether the Redis client is (after the
lazy connect attempt) ready, the keyed cache contents, and the append-only
log file. -/
structure FallbackState where
  ready : Bool
  store : List CacheEntry
  log : List LogLine
deriving DecidableEq, Repr

/-- The Redis key used for an alert id (`sos:fallback:` prefix). -/
def alertKey (alertId : String) : String := "sos:fallback:" ++ alertId

/-- Redis `SET` semantics: overwrite any entry under the same key. -/
def setKey (store : List CacheEntry) (k : String) (p : Payload) (ttl : ℕ) :
    List CacheEntry :=
  store.filter (fun e => e.key ≠ k) ++ [⟨k, p, ttl⟩]

/-- Redis `GET` semantics: the entry stored under the key, if any. -/
def lookupKey (store : List CacheEntry) (k : String) : Option Payload :=
  match store.find? (fun e => e.key = k) with
  | some e => some e.payload
  | none => none

/-- Redis `DEL` semantics: drop the entry under the key. -/
def delKey (store : List CacheEntry) (k : String) : List CacheEntry :=
  store.filter (fun e => e.key ≠ k)

/-- Embedding of `handleSOSFallback` (the `put`): when Redis is ready the
payload is stored under `sos:fallback:<id>` with a 1-hour TTL and only a
warning line is logged; otherwise the payload itself is appended to the
durable log with the `SOS_PAYLOAD` marker. -/
def handleSOSFallback (s : FallbackState) (p : Payload) : FallbackState :=
  if s.ready then
    { s with
      store := setKey s.store (alertKey p.alertId) p 3600,
      log := s.log ++ [LogLine.warnLine "Real-time channel down. Storing alert in Redis for fallback."] }
  else
    { s with
      log := s.log ++ [LogLine.warnLine "Redis unavailable. Alert logged to file only.",
        LogLine.payloadLine p] }

/-- The log-file scan of `getPendingAlert`: the first `SOS_PAYLOAD` line
whose payload carries the requested alert id. -/
def scanLog (log : List LogLine) (alertId : String) : Option Payload :=
  match log with
  | [] => none
  | LogLine.warnLine _ :: rest => scanLog rest alertId
  | LogLine.payloadLine p :: rest =>
    if p.alertId = alertId then some p else scanLog rest alertId

/-- Embedding of `getPendingAlert` (the `get`): when Redis is ready and
holds the key, the entry is returned and deleted (at-most-once hand-off);
on a cache miss or when Redis is unavailable the durable log is scanned
as a last resort.  Returns the retrieved payload and the new state. -/
def getPendingAlert (s : FallbackState) (alertId : String) :
    Option Payload × FallbackState :=
  if s.ready then
    match lookupKey s.store (alertKey alertId) with
    | some p => (some p, { s with store := delKey s.store (alertKey alertId) })
    | none => (scanLog s.log alertId, s)
  else (scanLog s.log alertId, s)

/-- The scan ignores warning lines. -/
theorem scanLog_append_warn (log : List LogLine) (msg alertId : String) :
    scanLog (log ++ [LogLine.warnLine msg]) alertId = scanLog log alertId := by
  induction log with
  | nil => rfl
  | cons line rest ih => cases line <;> simp [scanLog, ih]

/-- Scanning past a clean log finds an appended payload line. -/
theorem scanLog_append_payload (log : List LogLine) (p : Payload)
    (h : scanLog log p.alertId = none) :
    scanLog (log ++ [LogLine.payloadLine p]) p.alertId = some p := by
  induction log with
  | nil => simp [scanLog]
  | cons line rest ih =>
    cases line with
    | warnLine m =>
      simp only [scanLog] at h
      simpa [scanLog] using ih h
    | payloadLine q =>
      simp only [scanLog] at h ⊢
      by_cases hq : q.alertId = p.alertId
      · rw [if_pos hq] at h; exact absurd h (by simp)
      · rw [if_neg hq] at h ⊢
        exact ih h

/-- A freshly `SET` key is found. -/
theorem lookupKey_setKey (store : List CacheEntry) (k : String) (p : Payload)
    (ttl : ℕ) : lookupKey (setKey store k p ttl) k = some p := by
  unfold lookupKey setKey
  rw [List.find?_append]
  have hnone : (store.filter (fun e => e.key ≠ k)).find? (fun e => e.key = k) = none := by
    rw [List.find?_eq_none]
    intro e he
    have := (List.mem_filter.mp he).2
    simpa using this
  rw [hnone]
  simp [List.find?]

/-- After `DEL`, the key is gone. -/
theorem lookupKey_delKey (store : List CacheEntry) (k : String) :
    lookupKey (delKey store k) k = none := by
  unfold lookupKey delKey
  have hnone : (store.filter (fun e => e.key ≠ k)).find? (fun e => e.key = k) = none := by
    rw [List.find?_eq_none]
    intro e he
    have := (List.mem_filter.mp he).2
    simpa using this
  rw [hnone]

/-- C7: fallback round-trip.  Starting from any state whose durable log
has no payload line for the alert id: a `put` followed by a `get` returns
the original payload; when the cache was available the successful `get`
deletes the cache entry and a second `get` returns nothing (the log scan
it falls back to also finds nothing, since the cache-path `put` logged
only a warning); when the cache was unavailable at `put` time the lookup
falls through to the durable append log, on the second `get` as well. -/
theorem c7_fallback_roundtrip (s : FallbackState) (p : Payload)
    (hlog : scanLog s.log p.alertId = none) :
    (getPendingAlert (handleSOSFallback s p) p.alertId).1 = some p ∧
    (s.ready = true →
      lookupKey (getPendingAlert (handleSOSFallback s p) p.alertId).2.store
          (alertKey p.alertId) = none ∧
      (getPendingAlert (getPendingAlert (handleSOSFallback s p) p.alertId).2
          p.alertId).1 = none) ∧
    (s.ready = false →
      (getPendingAlert (getPendingAlert (handleSOSFallback s p) p.alertId).2
          p.alertId).1 = some p) := by
  by_cases hr : s.ready = true
  · have hlog2 : scanLog (s.log ++
        [LogLine.warnLine "Real-time channel down. Storing alert in Redis for fallback."])
        p.alertId = none := by
      rw [scanLog_append_warn]; exact hlog
    refine ⟨?_, fun _ => ⟨?_, ?_⟩, fun hf => absurd hr (by simp [hf])⟩
    · simp [handleSOSFallback, getPendingAlert, hr, lookupKey_setKey]
    · simp [handleSOSFallback, getPendingAlert, hr, lookupKey_setKey, lookupKey_delKey]
    · simp [handleSOSFallback, getPendingAlert, hr, lookupKey_setKey,
        lookupKey_delKey, hlog2]
  · have hf : s.ready = false := by simpa using hr
    have hwarn : scanLog (s.log ++
        [LogLine.warnLine "Redis unavailable. Alert logged to file only."])
        p.alertId = none := by
      rw [scanLog_append_warn]; exact hlog
    have hsplit : s.log ++
        [LogLine.warnLine "Redis unavailable. Alert logged to file only.",
          LogLine.payloadLine p] =
        (s.log ++ [LogLine.warnLine "Redis unavailable. Alert logged to file only."]) ++
          [LogLine.payloadLine p] := by
      simp
    have hscan : scanLog (s.log ++
        [LogLine.warnLine "Redis unavailable. Alert logged to file only.",
          LogLine.payloadLine p]) p.alertId = some p := by
      rw [hsplit]
      exact scanLog_append_payload _ p hwarn
    refine ⟨?_, fun ht => absurd ht hr, fun _ => ?_⟩
    · simp [handleSOSFallback, getPendingAlert, hf, hscan]
    · simp [handleSOSFallback, getPendingAlert, hf, hscan]

/-- Witness for C7 at a concrete payload, from the empty ready state. -/
theorem c7_fallback_roundtrip_witness :
    (getPendingAlert (handleSOSFallback ⟨true, [], []⟩ ⟨"a1", "help"⟩) "a1").1 =
      some ⟨"a1", "help"⟩ ∧
    ((true : Bool) = true →
      lookupKey (getPendingAlert (handleSOSFallback ⟨true, [], []⟩ ⟨"a1", "help"⟩)
          "a1").2.store (alertKey "a1") = none ∧
      (getPendingAlert
          (getPendingAlert (handleSOSFallback ⟨true, [], []⟩ ⟨"a1", "help"⟩) "a1").2
          "a1").1 = none) ∧
    ((true : Bool) = false →
      (getPendingAlert
          (getPendingAlert (handleSOSFallback ⟨true, [], []⟩ ⟨"a1", "help"⟩) "a1").2
          "a1").1 = some ⟨"a1", "help"⟩) :=
  c7_fallback_roundtrip ⟨true, [], []⟩ ⟨"a1", "help"⟩ rfl

end Fallback

namespace Scorer

/-!
Embedding of the dynamic safety score service (`calculateSafetyScore`).
The haversine `calculateDistance` is abstracted as a parameter `dist`
(lat₁ lng₁ lat₂ lng₂ ↦ meters) and the string cleanup `formatReasonText`
as a parameter `fmt`; both appear only applied, never inspected, so every
theorem holds for the concrete transcendental/string functions of the
source.  Query results arrive as explicit lists (the Mongo-side filters,
limits and projections are outside the embedded computation).
-/

/-- JavaScript `a || b` on an optional numeric field (`0` is falsy). -/
def jsOrNum (a : Option ℚ) (b : ℚ) : ℚ :=
  match a with
  | some x => if x = 0 then b else x
  | none => b

/-- JavaScript `a || b` on an optional string field (`""` is falsy). -/
def jsOrStr (a : Option String) (b : String) : String :=
  match a with
  | some x => if x = "" then b else x
  | none => b

/-- JavaScript `a || b` yielding another optional string
(`r.eventType || r.title`). -/
def jsOrOpt (a b : Option String) : Option String :=
  match a with
  | some x => if x = "" then b else some x
  | none => b

/-- One aggregated reason carried by a persisted risk grid cell. -/
structure GridReason where
  eventType : Option String
  title : Option String
deriving DecidableEq, Repr

/-- A risk grid document as returned by the nearby-cells query
(coordinates stored GeoJSON-style as [lng, lat]). -/
structure RiskGridDoc where
  locLng : ℚ
  locLat : ℚ
  riskScore : ℚ
  riskLevel : String
  radius : Option ℚ
  gridName : Option String
  reasons : List GridReason
deriving DecidableEq, Repr

/-- A danger zone document (`coords` is stored [lat, lng]). -/
structure DangerZoneDoc where
  coordLat : ℚ
  coordLng : ℚ
  ztype : String
  radiusKm : Option ℚ
  riskLevel : Option String
  name : String
deriving DecidableEq, Repr

/-- A raw SOS alert as returned by the recent-alert query; `coords` is
(lng, lat) or absent. -/
structure SOSDoc where
  coords : Option (ℚ × ℚ)
  safetyScore : Option ℚ
  reason : Option String
deriving DecidableEq, Repr

/-- A raw incident as returned by the recent-incident query. -/
structure IncidentDoc where
  coords : Option (ℚ × ℚ)
  severity : Option ℚ
  title : Option String
  itype : Option String
deriving DecidableEq, Repr

/-- A threat entry pushed by the scoring pass (presentation-only fields
such as the severity label, coordinates and timestamp are omitted; no
claim depends on them). -/
structure Threat where
  ttype : String
  name : String
  category : Option String
  distance : ℤ
  impact : ℤ
  reasons : List GridReason
  isInside : Option Bool
deriving DecidableEq, Repr

/-- A penalized grid coverage circle recorded in step 1 to mask the
underlying raw events. -/
structure PenalizedZone where
  lat : ℚ
  lng : ℚ
  radius : ℚ
deriving DecidableEq, Repr

/-- The mutable accumulation of one scoring pass
(`totalPenalty`, `threats`, `penalizedGridZones`). -/
structure ScanAcc where
  totalPenalty : ℚ
  threats : List Threat
  penalizedGridZones : List PenalizedZone
deriving DecidableEq, Repr

/-- `getRiskSeverity`: qualitative level to numeric severity, defaulting
to 0.3. -/
def getRiskSeverity (riskLevel : Option String) : ℚ :=
  match riskLevel with
  | some "Low" => 0.2
  | some "Medium" => 0.5
  | some "High" => 0.75
  | some "Very High" => 1.0
  | _ => 0.3

/-- The four distance band boundaries used by `calculateThreatImpact`. -/
structure BandConfig where
  critical : ℚ
  high : ℚ
  medium : ℚ
  low : ℚ
deriving DecidableEq, Repr

/-- Band boundaries selected by `calculateThreatImpact`: dynamic bands
from the cell's own radius for risk grids with a truthy `customRadius`,
fixed danger-zone bands, or the legacy static grid bands. -/
def threatBandConfig (ttype : String) (customRadius : Option ℚ) : BandConfig :=
  match customRadius with
  | some r =>
    if ttype = "risk_grid" ∧ r ≠ 0 then ⟨r, r + 500, r + 1500, r + 3000⟩
    else if ttype = "danger_zone" then ⟨100, 500, 2000, 5000⟩
    else ⟨100, 500, 1500, 3000⟩
  | none =>
    if ttype = "danger_zone" then ⟨100, 500, 2000, 5000⟩
    else ⟨100, 500, 1500, 3000⟩

/-- The four-band distance decay multiplier of `calculateThreatImpact`. -/
def impactMultiplier (c : BandConfig) (distance : ℚ) : ℚ :=
  if distance ≤ c.critical then 1
  else if distance ≤ c.high then
    0.7 + 0.3 * (1 - (distance - c.critical) / (c.high - c.critical))
  else if distance ≤ c.medium then
    0.4 + 0.3 * (1 - (distance - c.high) / (c.medium - c.high))
  else if distance ≤ c.low then
    0.1 + 0.3 * (1 - (distance - c.medium) / (c.low - c.medium))
  else 0

/-- `calculateThreatImpact`: beyond the low band the impact is 0,
otherwise severity · multiplier · max penalty (70 for danger zones,
50 otherwise). -/
def calculateThreatImpact (distance severity : ℚ) (ttype : String)
    (customRadius : Option ℚ) : ℚ :=
  let c := threatBandConfig ttype customRadius
  if distance > c.low then 0
  else severity * impactMultiplier c distance *
    (if ttype = "danger_zone" then 70 else 50)

/-- `proximityPenalty`: linear decay for nearby raw SOS / incident
signals (1 at the center, 0 at the edge). -/
def proximityPenalty (distance maxRadius severity maxPenalty : ℚ) : ℚ :=
  if distance > maxRadius then 0
  else severity * (1 - distance / maxRadius) * maxPenalty

/-- Step 1 body: one nearby risk grid.  `grid.radius || 500` gives the
masking radius; within `radius + 3000` the four-band impact applies; a
positive impact is added to the penalty, recorded as a threat, and the
cell's coverage circle is remembered for anti-double-counting. -/
def riskGridStep (dist : ℚ → ℚ → ℚ → ℚ → ℚ) (lat lng : ℚ)
    (acc : ScanAcc) (grid : RiskGridDoc) : ScanAcc :=
  let distance := dist lat lng grid.locLat grid.locLng
  let gridRadius := jsOrNum grid.radius 500
  let monitoringRange := gridRadius + 3000
  if distance ≤ monitoringRange then
    let impact := calculateThreatImpact distance grid.riskScore "risk_grid" (some gridRadius)
    if impact > 0 then
      ⟨acc.totalPenalty + impact,
        acc.threats ++ [⟨"risk_grid", jsOrStr grid.gridName "Risk Zone", none,
          round distance, round impact, grid.reasons, none⟩],
        acc.penalizedGridZones ++ [⟨grid.locLat, grid.locLng, gridRadius⟩]⟩
    else acc
  else acc

/-- One danger zone together with its computed distance / containment. -/
structure ZoneEntry where
  zone : DangerZoneDoc
  distance : ℚ
  isInside : Bool
deriving DecidableEq, Repr

/-- Step 2 range filter: circle zones by containment or edge distance,
point zones by direct distance, cutoff `DANGER_ZONE_LOW_DISTANCE` = 5000 m. -/
def dangerZoneEntry (dist : ℚ → ℚ → ℚ → ℚ → ℚ) (lat lng : ℚ)
    (zone : DangerZoneDoc) : Option ZoneEntry :=
  let distance := dist lat lng zone.coordLat zone.coordLng
  match zone.radiusKm with
  | some rk =>
    if zone.ztype = "circle" ∧ rk ≠ 0 then
      if distance ≤ rk * 1000 then some ⟨zone, 0, true⟩
      else if distance - rk * 1000 ≤ 5000 then some ⟨zone, distance - rk * 1000, false⟩
      else none
    else if distance ≤ 5000 then some ⟨zone, distance, false⟩
    else none
  | none =>
    if distance ≤ 5000 then some ⟨zone, distance, false⟩
    else none

/-- Stable insertion of `x` into a list sorted by `le`: models the
ordering produced by the stable JavaScript `Array.prototype.sort`. -/
def insertLe (le : α → α → Bool) (x : α) : List α → List α
  | [] => [x]
  | y :: ys => if le x y then x :: y :: ys else y :: insertLe le x ys

/-- Stable sort by `le` (the unique stable sorted rearrangement, which is
what the JavaScript comparator sorts produce). -/
def sortByLe (le : α → α → Bool) : List α → List α
  | [] => []
  | x :: xs => insertLe le x (sortByLe le xs)

/-- Step 2 body: one in-range danger zone; containment forces maximum
impact via distance 0. -/
def dangerZoneStep (acc : ScanAcc) (e : ZoneEntry) : ScanAcc :=
  let severity := getRiskSeverity e.zone.riskLevel
  let effectiveDistance := if e.isInside then 0 else e.distance
  let impact := calculateThreatImpact effectiveDistance severity "danger_zone" none
  if impact > 0 then
    ⟨acc.totalPenalty + impact,
      acc.threats ++ [⟨"danger_zone", e.zone.name, none, round e.distance,
        round impact, [], some e.isInside⟩],
      acc.penalizedGridZones⟩
  else acc

/-- The anti-double-counting test of steps 3 and 4: is the event location
inside some coverage circle penalized in step 1
(`distToGrid <= grid.radius`)? -/
def coveredByGrid (dist : ℚ → ℚ → ℚ → ℚ → ℚ) (zones : List PenalizedZone)
    (eLat eLng : ℚ) : Bool :=
  zones.any (fun g => dist eLat eLng g.lat g.lng ≤ g.radius)

/-- Step 3 body: one raw recent SOS alert.  Events without coordinates or
covered by a penalized grid are skipped; otherwise the linear proximity
penalty applies within `SOS_RADIUS_M` = 2500 m with
`MAX_SOS_PENALTY` = 40. -/
def sosStep (dist : ℚ → ℚ → ℚ → ℚ → ℚ) (fmt : String → String) (lat lng : ℚ)
    (acc : ScanAcc) (sos : SOSDoc) : ScanAcc :=
  match sos.coords with
  | none => acc
  | some c =>
    let sLng := c.1
    let sLat := c.2
    if coveredByGrid dist acc.penalizedGridZones sLat sLng then acc
    else
      let distance := dist lat lng sLat sLng
      let severity := max 0 (min 1 ((100 - jsOrNum sos.safetyScore 70) / 100))
      let impact := proximityPenalty distance 2500 severity 40
      if impact > 0 then
        ⟨acc.totalPenalty + impact,
          acc.threats ++ [⟨"sos_alert", fmt (jsOrStr sos.reason "Nearby SOS"),
            some "SOS Alert", round distance, round impact, [], none⟩],
          acc.penalizedGridZones⟩
      else acc

/-- Step 4 body: one raw recent incident, same masking test, linear
penalty within `INCIDENT_RADIUS_M` = 4000 m with
`MAX_INCIDENT_PENALTY` = 45. -/
def incidentStep (dist : ℚ → ℚ → ℚ → ℚ → ℚ) (fmt : String → String)
    (lat lng : ℚ) (acc : ScanAcc) (inc : IncidentDoc) : ScanAcc :=
  match inc.coords with
  | none => acc
  | some c =>
    let iLng := c.1
    let iLat := c.2
    if coveredByGrid dist acc.penalizedGridZones iLat iLng then acc
    else
      let distance := dist lat lng iLat iLng
      let severity := max 0 (min 1 (jsOrNum inc.severity 0.6))
      let impact := proximityPenalty distance 4000 severity 45
      if impact > 0 then
        ⟨acc.totalPenalty + impact,
          acc.threats ++ [⟨"incident", fmt (jsOrStr inc.title "Incident"),
            some (fmt (jsOrStr inc.itype "Incident")), round distance,
            round impact, [], none⟩],
          acc.penalizedGridZones⟩
      else acc

/-- JavaScript `Set.add` semantics on an insertion-ordered string list. -/
def addUnique (l : List String) (s : String) : List String :=
  if s ∈ l then l else l ++ [s]

/-- The `t.reasons.forEach` body of the description builder: add the
formatted `eventType || title` text when truthy. -/
def gridReasonAdd (fmt : String → String) (acc : List String)
    (r : GridReason) : List String :=
  match jsOrOpt r.eventType r.title with
  | some txt => if txt ≠ "" then addUnique acc (fmt txt) else acc
  | none => acc

/-- The reason-collection loop of the description builder: stop once the
set already holds 3 entries, then prefer a cell threat's aggregated
reasons (added wholesale), else the category, else the formatted name. -/
def buildUniqueReasons (fmt : String → String) :
    List Threat → List String → List String
  | [], acc => acc
  | t :: rest, acc =>
    if acc.length ≥ 3 then acc
    else
      let acc2 :=
        if t.ttype = "risk_grid" ∧ t.reasons ≠ [] then
          t.reasons.foldl (gridReasonAdd fmt) acc
        else
          match t.category with
          | some c =>
            if c ≠ "" then addUnique acc c
            else if t.name ≠ "" then addUnique acc (fmt t.name) else acc
          | none =>
            if t.name ≠ "" then addUnique acc (fmt t.name) else acc
      buildUniqueReasons fmt rest acc2

/-- The five safety bands (level, color, base description) keyed on the
rounded final score. -/
def safetyBand (score : ℤ) : String × String × String :=
  if score ≥ 90 then ("EXCELLENT", "#10b981", "Very Safe Area")
  else if score ≥ 70 then ("GOOD", "#3b82f6", "Safe Area")
  else if score ≥ 50 then ("FAIR", "#f59e0b", "Moderate Risk")
  else if score ≥ 30 then ("POOR", "#ea580c", "High Risk Area")
  else ("CRITICAL", "#dc2626", "Danger Zone")

/-- The response shape of `calculateSafetyScore` (the wall-clock
timestamp field is omitted). -/
structure ScoreResult where
  safetyScore : ℤ
  safetyLevel : String
  safetyColor : String
  description : String
  totalThreats : ℕ
  nearestThreat : Option Threat
  threats : List Threat
  lat : ℚ
  lng : ℚ
  errorFlag : Bool
deriving DecidableEq, Repr

/-- Steps 5 and 6: clamp `100 − totalPenalty` into [0,100], round, sort
threats by impact (descending, stable), pick the band, and compose the
description from the collected reasons. -/
def scoreResultOf (fmt : String → String) (lat lng : ℚ) (acc : ScanAcc) :
    ScoreResult :=
  let clamped := max 0 (min 100 (100 - acc.totalPenalty))
  let finalScore : ℤ := round clamped
  let sorted := sortByLe (fun a b => b.impact ≤ a.impact) acc.threats
  let band := safetyBand finalScore
  let description :=
    if finalScore < 90 ∧ sorted ≠ [] then
      let reasons := buildUniqueReasons fmt sorted []
      if reasons ≠ [] then
        band.2.2 ++ " • Reported issues: " ++ String.intercalate ", " reasons ++ "."
      else band.2.2 ++ " • Threats detected nearby."
    else if finalScore ≥ 90 then
      band.2.2 ++ " • Low crime rate reported recently."
    else band.2.2
  ⟨finalScore, band.1, band.2.1, description, sorted.length, sorted.head?,
    sorted.take 5, lat, lng, false⟩

/-- The four fallible document queries one scoring pass performs. -/
structure Env where
  riskGrids : Except String (List RiskGridDoc)
  dangerZones : Except String (List DangerZoneDoc)
  sosAlerts : Except String (List SOSDoc)
  incidents : Except String (List IncidentDoc)

/-- The body of `calculateSafetyScore` inside its `try`: the four query
steps in source order, threaded through the accumulator; any failing
query aborts the body with its error. -/
def calculateSafetyScoreBody (dist : ℚ → ℚ → ℚ → ℚ → ℚ)
    (fmt : String → String) (env : Env) (lat lng : ℚ) :
    Except String ScoreResult := do
  let grids ← env.riskGrids
  let acc1 := grids.foldl (riskGridStep dist lat lng) ⟨0, [], []⟩
  let zones ← env.dangerZones
  let entries := zones.filterMap (dangerZoneEntry dist lat lng)
  let nearZones := (sortByLe (fun a b => a.distance ≤ b.distance) entries).take 10
  let acc2 := nearZones.foldl dangerZoneStep acc1
  let sos ← env.sosAlerts
  let acc3 := sos.foldl (sosStep dist fmt lat lng) acc2
  let incs ← env.incidents
  let acc4 := incs.foldl (incidentStep dist fmt lat lng) acc3
  Except.ok (scoreResultOf fmt lat lng acc4)

/-- The neutral "assume safe" default returned by the `catch` block. -/
def defaultSafeResult (lat lng : ℚ) : ScoreResult :=
  ⟨80, "GOOD", "#3b82f6",
    "Unable to calculate precise safety score. Assuming safe area.",
    0, none, [], lat, lng, true⟩

/-- `calculateSafetyScore` with its outer try/catch: it is total, and an
internal failure is absorbed into the neutral default. -/
def calculateSafetyScore (dist : ℚ → ℚ → ℚ → ℚ → ℚ) (fmt : String → String)
    (env : Env) (lat lng : ℚ) : ScoreResult :=
  match calculateSafetyScoreBody dist fmt env lat lng with
  | Except.ok r => r
  | Except.error _ => defaultSafeResult lat lng

/-- Step 3 never touches the recorded coverage circles. -/
theorem sosStep_zones_invariant (dist : ℚ → ℚ → ℚ → ℚ → ℚ)
    (fmt : String → String) (lat lng : ℚ) (acc : ScanAcc) (sos : SOSDoc) :
    (sosStep dist fmt lat lng acc sos).penalizedGridZones =
      acc.penalizedGridZones := by
  rcases hc : sos.coords with _ | c
  · simp [sosStep, hc]
  · simp only [sosStep, hc]
    split_ifs <;> rfl

/-- Step 4 never touches the recorded coverage circles. -/
theorem incidentStep_zones_invariant (dist : ℚ → ℚ → ℚ → ℚ → ℚ)
    (fmt : String → String) (lat lng : ℚ) (acc : ScanAcc) (inc : IncidentDoc) :
    (incidentStep dist fmt lat lng acc inc).penalizedGridZones =
      acc.penalizedGridZones := by
  rcases hc : inc.coords with _ | c
  · simp [incidentStep, hc]
  · simp only [incidentStep, hc]
    split_ifs <;> rfl

/-- Folding step 3 over any alert list keeps the coverage circles. -/
theorem foldl_sosStep_zones (dist : ℚ → ℚ → ℚ → ℚ → ℚ)
    (fmt : String → String) (lat lng : ℚ) (l : List SOSDoc) (acc : ScanAcc) :
    (l.foldl (sosStep dist fmt lat lng) acc).penalizedGridZones =
      acc.penalizedGridZones := by
  induction l generalizing acc with
  | nil => rfl
  | cons x xs ih => rw [List.foldl_cons, ih, sosStep_zones_invariant]

/-- An SOS alert covered by a penalized grid is skipped outright. -/
theorem sosStep_covered_skip (dist : ℚ → ℚ → ℚ → ℚ → ℚ)
    (fmt : String → String) (lat lng : ℚ) (acc : ScanAcc) (sos : SOSDoc)
    (c : ℚ × ℚ) (hc : sos.coords = some c)
    (hcov : coveredByGrid dist acc.penalizedGridZones c.2 c.1 = true) :
    sosStep dist fmt lat lng acc sos = acc := by
  simp [sosStep, hc, hcov]

/-- An incident covered by a penalized grid is skipped outright. -/
theorem incidentStep_covered_skip (dist : ℚ → ℚ → ℚ → ℚ → ℚ)
    (fmt : String → String) (lat lng : ℚ) (acc : ScanAcc) (inc : IncidentDoc)
    (c : ℚ × ℚ) (hc : inc.coords = some c)
    (hcov : coveredByGrid dist acc.penalizedGridZones c.2 c.1 = true) :
    incidentStep dist fmt lat lng acc inc = acc := by
  simp [incidentStep, hc, hcov]

/-- Removing a covered SOS alert from anywhere in the query result leaves
the step 3 fold unchanged. -/
theorem foldl_sosStep_skip (dist : ℚ → ℚ → ℚ → ℚ → ℚ)
    (fmt : String → String) (lat lng : ℚ) (l1 l2 : List SOSDoc)
    (e : SOSDoc) (c : ℚ × ℚ) (hc : e.coords = some c) (acc : ScanAcc)
    (hcov : coveredByGrid dist acc.penalizedGridZones c.2 c.1 = true) :
    (l1 ++ e :: l2).foldl (sosStep dist fmt lat lng) acc =
      (l1 ++ l2).foldl (sosStep dist fmt lat lng) acc := by
  induction l1 generalizing acc with
  | nil =>
    simp only [List.nil_append, List.foldl_cons]
    rw [sosStep_covered_skip dist fmt lat lng acc e c hc hcov]
  | cons x xs ih =>
    simp only [List.cons_append, List.foldl_cons]
    apply ih
    rw [sosStep_zones_invariant]
    exact hcov

/-- Removing a covered incident from anywhere in the query result leaves
the step 4 fold unchanged. -/
theorem foldl_incidentStep_skip (dist : ℚ → ℚ → ℚ → ℚ → ℚ)
    (fmt : String → String) (lat lng : ℚ) (m1 m2 : List IncidentDoc)
    (f : IncidentDoc) (c : ℚ × ℚ) (hc : f.coords = some c) (acc : ScanAcc)
    (hcov : coveredByGrid dist acc.penalizedGridZones c.2 c.1 = true) :
    (m1 ++ f :: m2).foldl (incidentStep dist fmt lat lng) acc =
      (m1 ++ m2).foldl (incidentStep dist fmt lat lng) acc := by
  induction m1 generalizing acc with
  | nil =>
    simp only [List.nil_append, List.foldl_cons]
    rw [incidentStep_covered_skip dist fmt lat lng acc f c hc hcov]
  | cons x xs ih =>
    simp only [List.cons_append, List.foldl_cons]
    apply ih
    rw [incidentStep_zones_invariant]
    exact hcov

/-- The accumulator after steps 1 and 2 of one scoring pass. -/
def stepTwoAcc (dist : ℚ → ℚ → ℚ → ℚ → ℚ) (lat lng : ℚ)
    (grids : List RiskGridDoc) (zones : List DangerZoneDoc) : ScanAcc :=
  let acc1 := grids.foldl (riskGridStep dist lat lng) ⟨0, [], []⟩
  ((sortByLe (fun a b => a.distance ≤ b.distance)
    (zones.filterMap (dangerZoneEntry dist lat lng))).take 10).foldl
      dangerZoneStep acc1

/-- With all four queries succeeding, the body is the pure pipeline over
the step-2 accumulator. -/
theorem body_ok_eq (dist : ℚ → ℚ → ℚ → ℚ → ℚ) (fmt : String → String)
    (lat lng : ℚ) (grids : List RiskGridDoc) (zones : List DangerZoneDoc)
    (sosL : List SOSDoc) (incL : List IncidentDoc) :
    calculateSafetyScoreBody dist fmt
        ⟨Except.ok grids, Except.ok zones, Except.ok sosL, Except.ok incL⟩ lat lng =
      Except.ok (scoreResultOf fmt lat lng
        (incL.foldl (incidentStep dist fmt lat lng)
          (sosL.foldl (sosStep dist fmt lat lng)
            (stepTwoAcc dist lat lng grids zones)))) := rfl

/-- C3: anti-double-counting.  In a single scoring pass, a raw SOS alert
and a raw incident whose locations lie strictly inside the coverage
circle of some risk cell penalized in step 1 contribute nothing: the
pass computes exactly the same result as the pass that never saw them —
no proximity penalty, no threat entry. -/
theorem c3_anti_double_counting (dist : ℚ → ℚ → ℚ → ℚ → ℚ)
    (fmt : String → String) (lat lng : ℚ)
    (grids : List RiskGridDoc) (zones : List DangerZoneDoc)
    (l1 l2 : List SOSDoc) (m1 m2 : List IncidentDoc)
    (e : SOSDoc) (f : IncidentDoc) (ce cf : ℚ × ℚ)
    (hce : e.coords = some ce) (hcf : f.coords = some cf)
    (hcove : ∃ g ∈ (stepTwoAcc dist lat lng grids zones).penalizedGridZones,
      dist ce.2 ce.1 g.lat g.lng < g.radius)
    (hcovf : ∃ g ∈ (stepTwoAcc dist lat lng grids zones).penalizedGridZones,
      dist cf.2 cf.1 g.lat g.lng < g.radius) :
    calculateSafetyScoreBody dist fmt
        ⟨Except.ok grids, Except.ok zones,
          Except.ok (l1 ++ e :: l2), Except.ok (m1 ++ f :: m2)⟩ lat lng =
      calculateSafetyScoreBody dist fmt
        ⟨Except.ok grids, Except.ok zones,
          Except.ok (l1 ++ l2), Except.ok (m1 ++ m2)⟩ lat lng := by
  have hcovE : coveredByGrid dist
      (stepTwoAcc dist lat lng grids zones).penalizedGridZones ce.2 ce.1 = true := by
    rcases hcove with ⟨g, hg, hlt⟩
    unfold coveredByGrid
    rw [List.any_eq_true]
    exact ⟨g, hg, by simpa using le_of_lt hlt⟩
  have hcovF : coveredByGrid dist
      (stepTwoAcc dist lat lng grids zones).penalizedGridZones cf.2 cf.1 = true := by
    rcases hcovf with ⟨g, hg, hlt⟩
    unfold coveredByGrid
    rw [List.any_eq_true]
    exact ⟨g, hg, by simpa using le_of_lt hlt⟩
  rw [body_ok_eq, body_ok_eq,
    foldl_sosStep_skip dist fmt lat lng l1 l2 e ce hce _ hcovE,
    foldl_incidentStep_skip dist fmt lat lng m1 m2 f cf hcf _
      (by rw [foldl_sosStep_zones]; exact hcovF)]

/-- The constant-zero distance stand-in used by concrete instances
(matching the haversine on coincident points). -/
def cDist : ℚ → ℚ → ℚ → ℚ → ℚ := fun _ _ _ _ => 0

/-- A concrete risk grid cell of score 0.5 at the origin. -/
def gridW : RiskGridDoc := ⟨0, 0, 0.5, "Medium", none, none, []⟩

/-- A concrete covered SOS alert at the origin. -/
def sosW : SOSDoc := ⟨some (0, 0), some 50, none⟩

/-- A concrete covered incident at the origin. -/
def incW : IncidentDoc := ⟨some (0, 0), some (0.5 : ℚ), none, none⟩

/-- The step-2 accumulator of the witness pass records exactly the
witness cell's coverage circle. -/
theorem stepTwoAcc_witness_zones :
    (stepTwoAcc cDist 0 0 [gridW] []).penalizedGridZones = [⟨0, 0, 500⟩] := by
  norm_num [stepTwoAcc, riskGridStep, cDist, gridW, jsOrNum,
    calculateThreatImpact, threatBandConfig, impactMultiplier, sortByLe]
  decide

/-- Witness for C3: a pass over one penalized cell with one covered SOS
alert and one covered incident equals the pass without them. -/
theorem c3_anti_double_counting_witness :
    calculateSafetyScoreBody cDist id
        ⟨Except.ok [gridW], Except.ok [], Except.ok [sosW], Except.ok [incW]⟩ 0 0 =
      calculateSafetyScoreBody cDist id
        ⟨Except.ok [gridW], Except.ok [], Except.ok [], Except.ok []⟩ 0 0:=
  c3_anti_double_counting cDist id 0 0 [gridW] [] [] [] [] [] sosW incW
    (0, 0) (0, 0) rfl rfl
    ⟨⟨0, 0, 500⟩, by rw [stepTwoAcc_witness_zones]; simp, by norm_num [cDist]⟩
    ⟨⟨0, 0, 500⟩, by rw [stepTwoAcc_witness_zones]; simp, by norm_num [cDist]⟩

/-- C5: `calculateSafetyScore` never propagates an internal failure: it
is a total function, and whenever any internal step fails it returns the
neutral "assume safe" default — score 80, level GOOD, empty threat
list — for the queried coordinate. -/
theorem c5_scorer_absorbs_errors (dist : ℚ → ℚ → ℚ → ℚ → ℚ)
    (fmt : String → String) (env : Env) (lat lng : ℚ)
    (h : ∃ e, calculateSafetyScoreBody dist fmt env lat lng = Except.error e) :
    calculateSafetyScore dist fmt env lat lng = defaultSafeResult lat lng ∧
    (calculateSafetyScore dist fmt env lat lng).safetyScore = 80 ∧
    (calculateSafetyScore dist fmt env lat lng).safetyLevel = "GOOD" ∧
    (calculateSafetyScore dist fmt env lat lng).threats = [] := by
  rcases h with ⟨e, he⟩
  unfold calculateSafetyScore
  rw [he]
  exact ⟨rfl, rfl, rfl, rfl⟩

/-- Witness for C5: a pass whose risk-grid query fails yields the
default. -/
theorem c5_scorer_absorbs_errors_witness :
    calculateSafetyScore cDist id
        ⟨Except.error "db down", Except.ok [], Except.ok [], Except.ok []⟩ 0 0 =
      defaultSafeResult 0 0 ∧
    (calculateSafetyScore cDist id
        ⟨Except.error "db down", Except.ok [], Except.ok [], Except.ok []⟩ 0 0).safetyScore = 80 ∧
    (calculateSafetyScore cDist id
        ⟨Except.error "db down", Except.ok [], Except.ok [], Except.ok []⟩ 0 0).safetyLevel = "GOOD" ∧
    (calculateSafetyScore cDist id
        ⟨Except.error "db down", Except.ok [], Except.ok [], Except.ok []⟩ 0 0).threats = [] :=
  c5_scorer_absorbs_errors cDist id
    ⟨Except.error "db down", Except.ok [], Except.ok [], Except.ok []⟩ 0 0
    ⟨"db down", rfl⟩

/-- The counterexample threat for the description reason list: a single
penalized cell whose aggregated reasons hold four distinct event types
(all fixed points of `formatReasonText`). -/
def gridThreatCX : Threat :=
  ⟨"risk_grid", "Risk Zone", none, 0, 25,
    [⟨some "Theft", none⟩, ⟨some "Assault", none⟩, ⟨some "Riot", none⟩,
      ⟨some "Fire", none⟩], none⟩

/-- C9: the reason list the description builder produces is NOT limited
to 3 entries: a single cell-level threat adds all of its aggregated
reasons at once, so this pass composes a description naming four issues,
although the loop is commented `Limit to top 3 distinct reasons`. -/
theorem c9_reason_list_exceeds_three :
    (buildUniqueReasons id [gridThreatCX] []).length = 4 ∧
    (scoreResultOf id 0 0 ⟨30, [gridThreatCX], []⟩).description =
      "Safe Area • Reported issues: Theft, Assault, Riot, Fire." := by
  constructor
  · decide
  · have hscore : (max 0 (min 100 (100 - (30 : ℚ)))) = 70 := by norm_num
    have hround : round (70 : ℚ) = 70 := by
      rw [round_eq]
      norm_num
    unfold scoreResultOf
    rw [hscore]
    dsimp only
    rw [hround]
    decide

end Scorer
